import Mathlib

/-!
Shallow embedding of the wall-mesh generator (src/main.rs): a 2D grid of
Wall/Floor cells is turned into beveled 3D wall geometry.  Cell
classification, quarter resolution, mesh-buffer construction, concatenation
and transformation are translated directly from the source.  f32 values are
modelled as rationals; u32 index arithmetic wraps modulo 2^32; the source's
panicking branch (the classifier's unreachable arm) is modelled with Option.

The CardinalDirection/OrdinalDirection helpers (right90, left90, coord,
to_cardinals) and the bounds-checked Grid::get come from the external
direction and grid_2d crates; they are embedded here with their crates'
semantics (y grows downward; North = (0,-1); out-of-bounds get is None).
-/

namespace WallsMesh

inductive CellType where
  | Wall : CellType
  | Floor : CellType
deriving DecidableEq, Repr

inductive CardinalDirection where
  | north : CardinalDirection
  | east : CardinalDirection
  | south : CardinalDirection
  | west : CardinalDirection
deriving DecidableEq, Repr

def CardinalDirection.right90 : CardinalDirection → CardinalDirection
  | .north => .east
  | .east => .south
  | .south => .west
  | .west => .north

def CardinalDirection.left90 : CardinalDirection → CardinalDirection
  | .north => .west
  | .east => .north
  | .south => .east
  | .west => .south

structure Coord where
  x : Int
  y : Int
deriving DecidableEq, Repr

instance : Add Coord := ⟨fun a b => ⟨a.x + b.x, a.y + b.y⟩⟩

def CardinalDirection.coord : CardinalDirection → Coord
  | .north => ⟨0, -1⟩
  | .east => ⟨1, 0⟩
  | .south => ⟨0, 1⟩
  | .west => ⟨-1, 0⟩

inductive OrdinalDirection where
  | northEast : OrdinalDirection
  | southEast : OrdinalDirection
  | southWest : OrdinalDirection
  | northWest : OrdinalDirection
deriving DecidableEq, Repr

def OrdinalDirection.to_cardinals : OrdinalDirection → CardinalDirection × CardinalDirection
  | .northEast => (.north, .east)
  | .southEast => (.east, .south)
  | .southWest => (.south, .west)
  | .northWest => (.west, .north)

/-- The discriminant used when the source indexes `quarters[o as usize]`. -/
def OrdinalDirection.toIndex : OrdinalDirection → Fin 4
  | .northEast => 0
  | .southEast => 1
  | .southWest => 2
  | .northWest => 3

/-- A rectangular grid of cells; in-bounds contents are given by an arbitrary
function, mirroring grid_2d's `Grid<CellType>`. -/
structure Grid where
  width : Nat
  height : Nat
  cells : Int → Int → CellType

def Grid.get (g : Grid) (c : Coord) : Option CellType :=
  if 0 ≤ c.x ∧ c.x < (g.width : Int) ∧ 0 ≤ c.y ∧ c.y < (g.height : Int) then
    some (g.cells c.x c.y)
  else
    none

/-- `grid.get(coord).cloned().unwrap_or(CellType::Floor)`: out of bounds is Floor. -/
def Grid.getD (g : Grid) (c : Coord) : CellType :=
  (g.get c).getD CellType.Floor

inductive Piece where
  | Inner : Piece
  | Outer : Piece
  | Left : Piece
  | Right : Piece
deriving DecidableEq, Repr

/-- The mixed (one Wall, one Floor) arm of `Piece::choose`; `none` models the
`unreachable!()` panic. -/
def Piece.chooseMixed (wall_direction floor_direction : CardinalDirection) : Option Piece :=
  if wall_direction.right90 = floor_direction then some Piece.Right
  else if wall_direction.left90 = floor_direction then some Piece.Left
  else none

def Piece.choose (neigh_a neigh_b : CellType × CardinalDirection) : Option Piece :=
  match neigh_a.1, neigh_b.1 with
  | CellType.Floor, CellType.Floor => some Piece.Outer
  | CellType.Wall, CellType.Wall => some Piece.Inner
  | CellType.Wall, CellType.Floor => Piece.chooseMixed neigh_a.2 neigh_b.2
  | CellType.Floor, CellType.Wall => Piece.chooseMixed neigh_b.2 neigh_a.2

structure Quarter where
  piece : Piece
deriving Repr

instance : DecidableEq Quarter := fun a b =>
  match a, b with
  | ⟨.Inner⟩, ⟨.Inner⟩ => .isTrue rfl
  | ⟨.Outer⟩, ⟨.Outer⟩ => .isTrue rfl
  | ⟨.Left⟩, ⟨.Left⟩ => .isTrue rfl
  | ⟨.Right⟩, ⟨.Right⟩ => .isTrue rfl
  | ⟨.Inner⟩, ⟨.Outer⟩ => .isFalse nofun
  | ⟨.Inner⟩, ⟨.Left⟩ => .isFalse nofun
  | ⟨.Inner⟩, ⟨.Right⟩ => .isFalse nofun
  | ⟨.Outer⟩, ⟨.Inner⟩ => .isFalse nofun
  | ⟨.Outer⟩, ⟨.Left⟩ => .isFalse nofun
  | ⟨.Outer⟩, ⟨.Right⟩ => .isFalse nofun
  | ⟨.Left⟩, ⟨.Inner⟩ => .isFalse nofun
  | ⟨.Left⟩, ⟨.Outer⟩ => .isFalse nofun
  | ⟨.Left⟩, ⟨.Right⟩ => .isFalse nofun
  | ⟨.Right⟩, ⟨.Inner⟩ => .isFalse nofun
  | ⟨.Right⟩, ⟨.Outer⟩ => .isFalse nofun
  | ⟨.Right⟩, ⟨.Left⟩ => .isFalse nofun

def Quarter.from_grid (grid : Grid) (coord : Coord) (direction : OrdinalDirection) :
    Option Quarter :=
  let cards := direction.to_cardinals
  let cell_type_a := grid.getD (coord + cards.1.coord)
  let cell_type_b := grid.getD (coord + cards.2.coord)
  (Piece.choose (cell_type_a, cards.1) (cell_type_b, cards.2)).map Quarter.mk

structure CellDetails where
  quarters : Fin 4 → Quarter

instance : DecidableEq CellDetails := fun a b =>
  if h : a.quarters 0 = b.quarters 0 ∧ a.quarters 1 = b.quarters 1 ∧
      a.quarters 2 = b.quarters 2 ∧ a.quarters 3 = b.quarters 3 then
    Decidable.isTrue (by
      cases a
      cases b
      congr 1
      funext i
      obtain ⟨h0, h1, h2, h3⟩ := h
      fin_cases i <;> assumption)
  else
    Decidable.isFalse (fun hh => h (by cases hh; exact ⟨rfl, rfl, rfl, rfl⟩))

def CellDetails.outer : CellDetails :=
  ⟨fun _ => ⟨Piece.Outer⟩⟩

/-- The four-slot quarters array `[q0, q1, q2, q3]` as a function on `Fin 4`. -/
def mkQuarters (q0 q1 q2 q3 : Quarter) : Fin 4 → Quarter :=
  fun i =>
    match i with
    | ⟨0, _⟩ => q0
    | ⟨1, _⟩ => q1
    | ⟨2, _⟩ => q2
    | ⟨3, _⟩ => q3

/-- One write of the loop body `cell_details.quarters[o as usize] = q`. -/
def CellDetails.set (d : CellDetails) (o : OrdinalDirection) (q : Quarter) : CellDetails :=
  ⟨fun i => if i = o.toIndex then q else d.quarters i⟩

def CellDetails.from_grid (grid : Grid) (coord : Coord) : Option (Option CellDetails) :=
  match grid.getD coord with
  | CellType.Floor => some none
  | CellType.Wall =>
    (Quarter.from_grid grid coord .northEast).bind fun qa =>
    (Quarter.from_grid grid coord .southEast).bind fun qb =>
    (Quarter.from_grid grid coord .southWest).bind fun qc =>
    (Quarter.from_grid grid coord .northWest).bind fun qd =>
    some (some ((((CellDetails.outer.set .northEast qa).set .southEast qb).set
      .southWest qc).set .northWest qd))

structure Vec2 where
  x : ℚ
  y : ℚ
deriving DecidableEq, Repr

structure Vec3 where
  x : ℚ
  y : ℚ
  z : ℚ
deriving DecidableEq, Repr

structure Vec4 where
  x : ℚ
  y : ℚ
  z : ℚ
  w : ℚ
deriving DecidableEq, Repr

def vec2 (x y : ℚ) : Vec2 := ⟨x, y⟩

def vec3 (x y z : ℚ) : Vec3 := ⟨x, y, z⟩

def Vec2.add (a b : Vec2) : Vec2 := ⟨a.x + b.x, a.y + b.y⟩

def Vec3.extend (v : Vec3) (w : ℚ) : Vec4 := ⟨v.x, v.y, v.z, w⟩

def Vec4.truncate (v : Vec4) : Vec3 := ⟨v.x, v.y, v.z⟩

def Vec4.scale (v : Vec4) (k : ℚ) : Vec4 := ⟨k * v.x, k * v.y, k * v.z, k * v.w⟩

def Vec4.add (a b : Vec4) : Vec4 := ⟨a.x + b.x, a.y + b.y, a.z + b.z, a.w + b.w⟩

/-- cgmath's column-major `Matrix4<f32>`: the fields are the four columns. -/
structure Matrix4 where
  x : Vec4
  y : Vec4
  z : Vec4
  w : Vec4
deriving DecidableEq, Repr

/-- `m * v` for cgmath: the linear combination of the columns by `v`. -/
def Matrix4.mulVec (m : Matrix4) (v : Vec4) : Vec4 :=
  (((m.x.scale v.x).add (m.y.scale v.y)).add (m.z.scale v.z)).add (m.w.scale v.w)

structure Config where
  cell_size_px : ℚ

structure Style where
  width_px : ℚ
  height_px : ℚ
  face_tex_top_left_px : Vec2
  top_tex_top_left_px : Vec2

structure BaseAttribute where
  face_tex_offset_px_x : ℚ
  space_coord_px : Vec2

structure TopAttribute where
  tex_offset_px : Vec2
  space_coord_px : Vec2

def TopAttribute.new (piece_tex_offset_px space_coord_px : Vec2) : TopAttribute :=
  { tex_offset_px := piece_tex_offset_px.add (vec2 space_coord_px.x (-space_coord_px.y)),
    space_coord_px := space_coord_px }

structure Attribute where
  space_coord_px : Vec3
  tex_coord_px : Vec2
deriving DecidableEq, Repr

/-- Indices are `u32` in the source; they are modelled as naturals and every
index operation wraps modulo `U32_SIZE`. -/
def U32_SIZE : Nat := 4294967296

structure RelativeBuffers where
  attributes : List Attribute
  indices : List Nat
deriving DecidableEq, Repr

def RelativeBuffers.concat (a b : RelativeBuffers) : RelativeBuffers :=
  { attributes := a.attributes ++ b.attributes,
    indices := a.indices ++
      b.indices.map (fun i => (i + a.attributes.length % U32_SIZE) % U32_SIZE) }

def RelativeBuffers.concat_all (l : List RelativeBuffers) : RelativeBuffers :=
  let p := l.foldl
    (fun (acc : List Attribute × List Nat) b =>
      (acc.1 ++ b.attributes,
       acc.2 ++ b.indices.map (fun i => (i + acc.1.length % U32_SIZE) % U32_SIZE)))
    ([], [])
  { attributes := p.1, indices := p.2 }

def RelativeBuffers.transform (b : RelativeBuffers) (m : Matrix4) : RelativeBuffers :=
  { attributes := b.attributes.map (fun a =>
      { a with space_coord_px := (m.mulVec (a.space_coord_px.extend 1)).truncate }),
    indices := b.indices }

def BASE_TOP_ALTERNATING_INDICES_1 : List Nat := [0, 1, 2, 1, 3, 2]

def BASE_TOP_ALTERNATING_INDICES_2 : List Nat := [0, 1, 2, 1, 3, 2, 2, 3, 4, 3, 5, 4]

def make_edge_base (piece : Piece) (style : Style) (config : Config) :
    List BaseAttribute × List Nat :=
  let s := config.cell_size_px
  let w := style.width_px
  match piece with
  | Piece.Inner =>
    ([{ face_tex_offset_px_x := 0, space_coord_px := vec2 s w },
      { face_tex_offset_px_x := s - w, space_coord_px := vec2 w w },
      { face_tex_offset_px_x := 2 * (s - w), space_coord_px := vec2 w s }],
     BASE_TOP_ALTERNATING_INDICES_2)
  | Piece.Outer =>
    ([{ face_tex_offset_px_x := 0, space_coord_px := vec2 0 w },
      { face_tex_offset_px_x := w, space_coord_px := vec2 w w },
      { face_tex_offset_px_x := 2 * w, space_coord_px := vec2 0 w }],
     BASE_TOP_ALTERNATING_INDICES_2)
  | Piece.Left =>
    ([{ face_tex_offset_px_x := 0, space_coord_px := vec2 s w },
      { face_tex_offset_px_x := s, space_coord_px := vec2 0 w }],
     BASE_TOP_ALTERNATING_INDICES_1)
  | Piece.Right =>
    ([{ face_tex_offset_px_x := 0, space_coord_px := vec2 w 0 },
      { face_tex_offset_px_x := s, space_coord_px := vec2 w s }],
     BASE_TOP_ALTERNATING_INDICES_1)

def make_faces (piece : Piece) (style : Style) (config : Config) : RelativeBuffers :=
  let eb := make_edge_base piece style config
  let base := eb.1.map (fun a =>
    { space_coord_px := vec3 a.space_coord_px.x 0 a.space_coord_px.y,
      tex_coord_px :=
        (vec2 a.face_tex_offset_px_x style.height_px).add style.face_tex_top_left_px
      : Attribute })
  let top := eb.1.map (fun a =>
    { space_coord_px := vec3 a.space_coord_px.x style.height_px a.space_coord_px.y,
      tex_coord_px := (vec2 a.face_tex_offset_px_x 0).add style.face_tex_top_left_px
      : Attribute })
  { attributes := (base.zip top).flatMap (fun p => [p.1, p.2]),
    indices := eb.2 }

def make_rect_top (size piece_tex_offset_px : Vec2) : List TopAttribute × List Nat :=
  ([TopAttribute.new piece_tex_offset_px (vec2 0 0),
    TopAttribute.new piece_tex_offset_px (vec2 0 size.y),
    TopAttribute.new piece_tex_offset_px size,
    TopAttribute.new piece_tex_offset_px (vec2 size.x 0)],
   [0, 1, 2, 0, 2, 3])

def make_top (piece : Piece) (style : Style) (config : Config) : RelativeBuffers :=
  let s := config.cell_size_px
  let w := style.width_px
  let ai : List TopAttribute × List Nat :=
    match piece with
    | Piece.Inner =>
      ([TopAttribute.new (vec2 s s) (vec2 0 s),
        TopAttribute.new (vec2 s s) (vec2 w s),
        TopAttribute.new (vec2 s s) (vec2 w w),
        TopAttribute.new (vec2 s s) (vec2 0 0),
        TopAttribute.new (vec2 s s) (vec2 s 0),
        TopAttribute.new (vec2 s s) (vec2 s w)],
       [0, 1, 2, 0, 2, 3, 2, 4, 3, 2, 5, 4])
    | Piece.Outer => make_rect_top (vec2 w w) (vec2 0 (2 * s))
    | Piece.Left => make_rect_top (vec2 s w) (vec2 s (2 * s))
    | Piece.Right => make_rect_top (vec2 w s) (vec2 0 s)
  { attributes := ai.1.map (fun a =>
      { space_coord_px := vec3 a.space_coord_px.x style.height_px a.space_coord_px.y,
        tex_coord_px := a.tex_offset_px.add style.top_tex_top_left_px }),
    indices := ai.2 }

def make_geometry (piece : Piece) (style : Style) (config : Config) : RelativeBuffers :=
  (make_top piece style config).concat (make_faces piece style config)

/-- The index-validity invariant: every index references an attribute. -/
def indicesValid (b : RelativeBuffers) : Prop :=
  ∀ i ∈ b.indices, i < b.attributes.length

instance (b : RelativeBuffers) : Decidable (indicesValid b) :=
  inferInstanceAs (Decidable (∀ i ∈ b.indices, i < b.attributes.length))

/-! Concrete grids used as witnesses and in the end-to-end scenario. -/

/-- The 2x2 scenario grid: row0 = "##", row1 = ".#" (Floor only at (0,1)). -/
def gridC3 : Grid :=
  ⟨2, 2, fun x y => if x = 0 ∧ y = 1 then CellType.Floor else CellType.Wall⟩

/-- A 3x3 grid of solid Wall. -/
def gridAllWall : Grid := ⟨3, 3, fun _ _ => CellType.Wall⟩

/-- A 3x3 grid whose only Wall cell is the centre (1,1). -/
def gridIsolated : Grid :=
  ⟨3, 3, fun x y => if x = 1 ∧ y = 1 then CellType.Wall else CellType.Floor⟩

/-- The style values used by the source's main. -/
def styleEx : Style := ⟨8, 32, ⟨32, 0⟩, ⟨0, 0⟩⟩

/-- The config value used by the source's main. -/
def configEx : Config := ⟨16⟩

/-- A small concrete buffer: one attribute, one index. -/
def bufEx1 : RelativeBuffers := ⟨[⟨⟨0, 0, 0⟩, ⟨0, 0⟩⟩], [0]⟩

/-- A small concrete buffer: two attributes, two indices. -/
def bufEx2 : RelativeBuffers := ⟨[⟨⟨1, 0, 0⟩, ⟨0, 0⟩⟩, ⟨⟨0, 1, 0⟩, ⟨0, 0⟩⟩], [0, 1]⟩

/-- Writing the four quarters in the loop's order NE, SE, SW, NW fills the
four slots of the quarters array. -/
theorem CellDetails.set_chain_eq (qa qb qc qd : Quarter) :
    (((CellDetails.outer.set .northEast qa).set .southEast qb).set
        .southWest qc).set .northWest qd = ⟨mkQuarters qa qb qc qd⟩ := by
  show CellDetails.mk _ = CellDetails.mk _
  congr 1
  funext i
  fin_cases i <;> rfl

/-- C1: both neighbors Floor gives Outer; both Wall gives Inner; with exactly
one Wall, rotating the Wall neighbor's direction 90 degrees clockwise onto the
Floor neighbor's direction gives Right, and 90 degrees counter-clockwise gives
Left. -/
theorem choose_piece_spec (ta tb : CellType) (da db : CardinalDirection) :
    (ta = CellType.Floor → tb = CellType.Floor →
      Piece.choose (ta, da) (tb, db) = some Piece.Outer) ∧
    (ta = CellType.Wall → tb = CellType.Wall →
      Piece.choose (ta, da) (tb, db) = some Piece.Inner) ∧
    (ta = CellType.Wall → tb = CellType.Floor →
      (da.right90 = db → Piece.choose (ta, da) (tb, db) = some Piece.Right) ∧
      (da.left90 = db → Piece.choose (ta, da) (tb, db) = some Piece.Left)) ∧
    (ta = CellType.Floor → tb = CellType.Wall →
      (db.right90 = da → Piece.choose (ta, da) (tb, db) = some Piece.Right) ∧
      (db.left90 = da → Piece.choose (ta, da) (tb, db) = some Piece.Left)) := by
  refine ⟨?_, ?_, ?_, ?_⟩ <;> (cases ta <;> cases tb <;> cases da <;> cases db <;> decide)

/-- Witness for C1: each clause of choose_piece_spec applied at a concrete
neighbor pair. -/
theorem choose_piece_spec_witness :
    Piece.choose (CellType.Floor, .north) (CellType.Floor, .east) = some Piece.Outer ∧
    Piece.choose (CellType.Wall, .north) (CellType.Wall, .east) = some Piece.Inner ∧
    Piece.choose (CellType.Wall, .north) (CellType.Floor, .east) = some Piece.Right ∧
    Piece.choose (CellType.Wall, .north) (CellType.Floor, .west) = some Piece.Left ∧
    Piece.choose (CellType.Floor, .east) (CellType.Wall, .north) = some Piece.Right ∧
    Piece.choose (CellType.Floor, .west) (CellType.Wall, .north) = some Piece.Left :=
  ⟨(choose_piece_spec _ _ _ _).1 rfl rfl,
   (choose_piece_spec _ _ _ _).2.1 rfl rfl,
   ((choose_piece_spec _ _ _ _).2.2.1 rfl rfl).1 rfl,
   ((choose_piece_spec _ _ _ _).2.2.1 rfl rfl).2 rfl,
   ((choose_piece_spec _ _ _ _).2.2.2 rfl rfl).1 rfl,
   ((choose_piece_spec _ _ _ _).2.2.2 rfl rfl).2 rfl⟩

/-- C4: the classifier is symmetric in its two neighbor arguments. -/
theorem choose_piece_symm (a b : CellType × CardinalDirection) :
    Piece.choose a b = Piece.choose b a := by
  obtain ⟨ta, da⟩ := a
  obtain ⟨tb, db⟩ := b
  cases ta <;> cases tb <;> rfl

/-- C5: on the two cardinals of any ordinal direction the classifier never
reaches its unreachable arm for any cell types, quarter resolution always
produces a quarter (out-of-bounds lookups default to Floor), and cell-detail
construction is total. -/
theorem quarter_resolution_total :
    (∀ (o : OrdinalDirection) (ta tb : CellType),
      (Piece.choose (ta, o.to_cardinals.1) (tb, o.to_cardinals.2)).isSome = true) ∧
    (∀ (g : Grid) (c : Coord) (o : OrdinalDirection),
      (Quarter.from_grid g c o).isSome = true) ∧
    (∀ (g : Grid) (c : Coord), (CellDetails.from_grid g c).isSome = true) := by
  have h1 : ∀ (o : OrdinalDirection) (ta tb : CellType),
      (Piece.choose (ta, o.to_cardinals.1) (tb, o.to_cardinals.2)).isSome = true := by
    intro o ta tb
    cases o <;> cases ta <;> cases tb <;> decide
  have h2 : ∀ (g : Grid) (c : Coord) (o : OrdinalDirection),
      (Quarter.from_grid g c o).isSome = true := by
    intro g c o
    have h := h1 o (g.getD (c + o.to_cardinals.1.coord)) (g.getD (c + o.to_cardinals.2.coord))
    simpa [Quarter.from_grid] using h
  refine ⟨h1, h2, fun g c => ?_⟩
  unfold CellDetails.from_grid
  cases g.getD c with
  | Floor => rfl
  | Wall =>
    obtain ⟨qa, ha⟩ := Option.isSome_iff_exists.mp (h2 g c .northEast)
    obtain ⟨qb, hb⟩ := Option.isSome_iff_exists.mp (h2 g c .southEast)
    obtain ⟨qc, hc⟩ := Option.isSome_iff_exists.mp (h2 g c .southWest)
    obtain ⟨qd, hd⟩ := Option.isSome_iff_exists.mp (h2 g c .northWest)
    simp [ha, hb, hc, hd]

/-- C2: cell-detail construction yields no detail on a Floor cell, four Inner
quarters on a Wall cell whose four cardinal neighbors are all Wall, and four
Outer quarters on an isolated Wall cell (all four cardinal neighbors Floor). -/
theorem cell_details_build_spec (g : Grid) (c : Coord) :
    (g.getD c = CellType.Floor → CellDetails.from_grid g c = some none) ∧
    (g.getD c = CellType.Wall →
      ((∀ d : CardinalDirection, g.getD (c + d.coord) = CellType.Wall) →
          CellDetails.from_grid g c =
            some (some ⟨mkQuarters ⟨Piece.Inner⟩ ⟨Piece.Inner⟩ ⟨Piece.Inner⟩ ⟨Piece.Inner⟩⟩)) ∧
      ((∀ d : CardinalDirection, g.getD (c + d.coord) = CellType.Floor) →
          CellDetails.from_grid g c =
            some (some ⟨mkQuarters ⟨Piece.Outer⟩ ⟨Piece.Outer⟩ ⟨Piece.Outer⟩ ⟨Piece.Outer⟩⟩))) := by
  refine ⟨fun h => by simp [CellDetails.from_grid, h],
    fun h => ⟨fun hall => ?_, fun hall => ?_⟩⟩
  · simp [CellDetails.from_grid, h, Quarter.from_grid, OrdinalDirection.to_cardinals,
      hall, Piece.choose, CellDetails.set_chain_eq]
  · simp [CellDetails.from_grid, h, Quarter.from_grid, OrdinalDirection.to_cardinals,
      hall, Piece.choose, CellDetails.set_chain_eq]

/-- Witness for C2: each clause of cell_details_build_spec applied to a
concrete grid and coordinate. -/
theorem cell_details_build_spec_witness :
    (gridIsolated.getD ⟨0, 0⟩ = CellType.Floor ∧
      CellDetails.from_grid gridIsolated ⟨0, 0⟩ = some none) ∧
    (gridAllWall.getD ⟨1, 1⟩ = CellType.Wall ∧
      CellDetails.from_grid gridAllWall ⟨1, 1⟩ =
        some (some ⟨mkQuarters ⟨Piece.Inner⟩ ⟨Piece.Inner⟩ ⟨Piece.Inner⟩ ⟨Piece.Inner⟩⟩)) ∧
    (gridIsolated.getD ⟨1, 1⟩ = CellType.Wall ∧
      CellDetails.from_grid gridIsolated ⟨1, 1⟩ =
        some (some ⟨mkQuarters ⟨Piece.Outer⟩ ⟨Piece.Outer⟩ ⟨Piece.Outer⟩ ⟨Piece.Outer⟩⟩)) :=
  ⟨⟨rfl, (cell_details_build_spec gridIsolated ⟨0, 0⟩).1 rfl⟩,
   ⟨rfl, ((cell_details_build_spec gridAllWall ⟨1, 1⟩).2 rfl).1
      (fun d => by cases d <;> rfl)⟩,
   ⟨rfl, ((cell_details_build_spec gridIsolated ⟨1, 1⟩).2 rfl).2
      (fun d => by cases d <;> rfl)⟩⟩

/-- C3 counterexample: on the grid "##"/".#" the Wall cell (1,1) has cardinal
neighborhood N=Wall, E=out-of-bounds Floor, S=out-of-bounds Floor, W=Floor, so
its quarters are NE=Right, SE=Outer, SW=Outer, NW=Left; in particular the NE
quarter is Right, not the claimed Inner. -/
theorem gridC3_quarters_counterexample :
    CellDetails.from_grid gridC3 ⟨1, 1⟩ =
      some (some ⟨mkQuarters ⟨Piece.Right⟩ ⟨Piece.Outer⟩ ⟨Piece.Outer⟩ ⟨Piece.Left⟩⟩) ∧
    Piece.Right ≠ Piece.Inner := by
  constructor
  · have h : CellDetails.from_grid gridC3 ⟨1, 1⟩ =
        some (some ((((CellDetails.outer.set .northEast ⟨Piece.Right⟩).set
          .southEast ⟨Piece.Outer⟩).set .southWest ⟨Piece.Outer⟩).set
          .northWest ⟨Piece.Left⟩)) := rfl
    rw [h, CellDetails.set_chain_eq]
  · decide

/-- C3 (amended): on the grid "##"/".#" the Wall cell (1,1) resolves its
quarters to NE=Right, SE=Outer, SW=Outer, NW=Left, consistent with its
one-Wall (N) plus three-Floor (E and S out of bounds, W in-grid Floor)
cardinal neighborhood. -/
theorem gridC3_quarters :
    CellDetails.from_grid gridC3 ⟨1, 1⟩ =
      some (some ⟨mkQuarters ⟨Piece.Right⟩ ⟨Piece.Outer⟩ ⟨Piece.Outer⟩ ⟨Piece.Left⟩⟩) := by
  have h : CellDetails.from_grid gridC3 ⟨1, 1⟩ =
      some (some ((((CellDetails.outer.set .northEast ⟨Piece.Right⟩).set
        .southEast ⟨Piece.Outer⟩).set .southWest ⟨Piece.Outer⟩).set
        .northWest ⟨Piece.Left⟩)) := rfl
  rw [h, CellDetails.set_chain_eq]

/-- C6: every index of a generated piece mesh refers to one of its attributes,
and concatenation preserves that invariant by offsetting the second buffer's
indices by the first buffer's attribute count. -/
theorem make_geometry_indices_valid :
    (∀ (piece : Piece) (style : Style) (config : Config),
      indicesValid (make_geometry piece style config)) ∧
    (∀ a b : RelativeBuffers, indicesValid a → indicesValid b →
      indicesValid (a.concat b)) := by
  constructor
  · intro p s c
    cases p
    case Inner =>
      intro i hi
      rw [show (make_geometry Piece.Inner s c).indices =
        [0, 1, 2, 0, 2, 3, 2, 4, 3, 2, 5, 4, 6, 7, 8, 7, 9, 8, 8, 9, 10, 9, 11, 10]
        from rfl] at hi
      rw [show (make_geometry Piece.Inner s c).attributes.length = 12 from rfl]
      fin_cases hi <;> decide
    case Outer =>
      intro i hi
      rw [show (make_geometry Piece.Outer s c).indices =
        [0, 1, 2, 0, 2, 3, 4, 5, 6, 5, 7, 6, 6, 7, 8, 7, 9, 8] from rfl] at hi
      rw [show (make_geometry Piece.Outer s c).attributes.length = 10 from rfl]
      fin_cases hi <;> decide
    case Left =>
      intro i hi
      rw [show (make_geometry Piece.Left s c).indices =
        [0, 1, 2, 0, 2, 3, 4, 5, 6, 5, 7, 6] from rfl] at hi
      rw [show (make_geometry Piece.Left s c).attributes.length = 8 from rfl]
      fin_cases hi <;> decide
    case Right =>
      intro i hi
      rw [show (make_geometry Piece.Right s c).indices =
        [0, 1, 2, 0, 2, 3, 4, 5, 6, 5, 7, 6] from rfl] at hi
      rw [show (make_geometry Piece.Right s c).attributes.length = 8 from rfl]
      fin_cases hi <;> decide
  · intro a b ha hb i hi
    simp only [RelativeBuffers.concat, List.mem_append, List.mem_map] at hi
    simp only [RelativeBuffers.concat, List.length_append]
    rcases hi with hi | ⟨j, hj, rfl⟩
    · exact lt_of_lt_of_le (ha i hi) (Nat.le_add_right _ _)
    · have hjb := hb j hj
      simp only [U32_SIZE]
      omega

/-- Witness for C6: the invariant evaluated for the Inner piece at the
source's style/config values, and concat applied to two small valid buffers. -/
theorem make_geometry_indices_valid_witness :
    indicesValid (make_geometry Piece.Inner styleEx configEx) ∧
    indicesValid bufEx1 ∧ indicesValid bufEx2 ∧
    indicesValid (bufEx1.concat bufEx2) :=
  ⟨make_geometry_indices_valid.1 Piece.Inner styleEx configEx,
   by decide, by decide,
   make_geometry_indices_valid.2 bufEx1 bufEx2 (by decide) (by decide)⟩

/-- C7: buffer concatenation is associative: the attribute sequences agree in
order and the remapped index sequences agree. -/
theorem concat_assoc (a b c : RelativeBuffers) :
    (a.concat b).concat c = a.concat (b.concat c) := by
  simp only [RelativeBuffers.concat, List.append_assoc, List.map_append, List.map_map,
    List.length_append, RelativeBuffers.mk.injEq, true_and]
  congr 2
  apply List.map_congr_left
  intro i _
  simp only [Function.comp_apply, U32_SIZE]
  omega

/-- C8: the accumulator-pass merge concat_all coincides with the left fold of
pairwise concat starting from the empty buffer, in attributes and indices. -/
theorem concat_all_eq_foldl (l : List RelativeBuffers) :
    RelativeBuffers.concat_all l = l.foldl RelativeBuffers.concat ⟨[], []⟩ := by
  have h : ∀ (t : List RelativeBuffers) (acc : List Attribute × List Nat),
      t.foldl
        (fun (acc : List Attribute × List Nat) b =>
          (acc.1 ++ b.attributes,
           acc.2 ++ b.indices.map (fun i => (i + acc.1.length % U32_SIZE) % U32_SIZE)))
        acc
      = ((t.foldl RelativeBuffers.concat ⟨acc.1, acc.2⟩).attributes,
         (t.foldl RelativeBuffers.concat ⟨acc.1, acc.2⟩).indices) := by
    intro t
    induction t with
    | nil => intro acc; rfl
    | cons b rest ih =>
      intro acc
      simpa [RelativeBuffers.concat] using ih
        (acc.1 ++ b.attributes,
         acc.2 ++ b.indices.map (fun i => (i + acc.1.length % U32_SIZE) % U32_SIZE))
  show RelativeBuffers.mk _ _ = _
  rw [h]

/-- C9: transforming a buffer by a 4x4 matrix maps every vertex position
through the matrix and leaves the index array identical. -/
theorem transform_moves_positions_keeps_indices (b : RelativeBuffers) (m : Matrix4) :
    (b.transform m).indices = b.indices ∧
    (b.transform m).attributes = b.attributes.map (fun a =>
      { a with space_coord_px := (m.mulVec (a.space_coord_px.extend 1)).truncate }) :=
  ⟨rfl, rfl⟩

/-- C10: transforming a buffer preserves the number and order of attributes and
each attribute's texture coordinate; only the position component changes, to
the matrix image of the old position. -/
theorem transform_keeps_tex_coords (b : RelativeBuffers) (m : Matrix4) :
    (b.transform m).attributes.length = b.attributes.length ∧
    (b.transform m).attributes.map Attribute.tex_coord_px =
      b.attributes.map Attribute.tex_coord_px ∧
    (b.transform m).attributes.map Attribute.space_coord_px =
      b.attributes.map (fun a => (m.mulVec (a.space_coord_px.extend 1)).truncate) := by
  refine ⟨?_, ?_, ?_⟩ <;>
    simp [RelativeBuffers.transform, List.map_map, Function.comp]

end WallsMesh
